import Mathlib

/-
Verification of the lcore-indexer event-ingestion pipeline.

The Rust sources are embedded shallowly: each SQL `INSERT` becomes a pure
update of an in-memory `Db` made of per-table row lists, each event handler
of `src/main.rs` becomes a `Db → event → Db` function, the
`while let Some(log) = stream.next().await` loop of `index_verifier_registry`
becomes a fold over a finite list of raw log records (the records the stream
yields before it ends), and the `?` operator becomes `Except` error
propagation.  Hashes and addresses are kept as their numeric values
(the `format!("{:?}", addr)` rendering used by the code is injective, so
nothing is lost by storing the number itself).
-/

namespace LCore

/-- Raw log record yielded by the subscription stream (the ethers `Log`
struct as used by `src/main.rs`): contract address, topic hashes, payload
bytes, and the provenance fields `block_number`, `transaction_hash` and
`log_index`, each of which the transport marks optional. -/
structure RawLog where
  address : Nat
  topics : List Nat
  data : List Nat
  blockNumber : Option Nat
  txHash : Option Nat
  logIndex : Option Nat
  deriving DecidableEq

/-- Row shape of `verifier_events` as inserted by `handle_verifier_added` /
`handle_verifier_removed` (`src/main.rs` lines 312-324 and 332-344); the
`id` and `created_at` columns are database-generated and never bound by the
code, so they are not part of the inserted tuple. -/
structure VerifierEventRow where
  verifier_address : Nat
  event_type : String
  timestamp : Nat
  block_number : Nat
  tx_hash : String
  deriving DecidableEq

/-- Row shape of `ownership_transfers` as inserted by
`handle_ownership_transferred` (`src/main.rs` lines 356-368). -/
structure OwnershipTransferRow where
  contract_type : String
  previous_owner : Nat
  new_owner : Nat
  block_number : Nat
  tx_hash : String
  deriving DecidableEq

/-- Row shape of `device_events` as inserted by `handle_device_registered`
(all columns) and `handle_device_updated` (which omits `device_type` and
`zone`, leaving them NULL — hence `Option`). -/
structure DeviceEventRow where
  device_id : Nat
  owner_address : Nat
  event_type : String
  device_type : Option Nat
  zone : Option String
  timestamp : Nat
  block_number : Nat
  tx_hash : String
  deriving DecidableEq

/-- Row shape of `device_transfers` as inserted by
`handle_device_transferred`. -/
structure DeviceTransferRow where
  device_id : Nat
  old_owner : Nat
  new_owner : Nat
  timestamp : Nat
  block_number : Nat
  tx_hash : String
  deriving DecidableEq

/-- Row shape of `data_submissions` as inserted by `handle_data_submitted`. -/
structure DataSubmissionRow where
  data_hash : Nat
  device_id_hash : Nat
  device_owner : Nat
  timestamp : Nat
  block_number : Nat
  tx_hash : String
  deriving DecidableEq

/-- Row shape of `marketplace_config` as inserted by
`handle_marketplace_config_updated` (`src/main.rs` lines 477-485); the
`updated_at` column is filled server-side with `NOW()` and is not part of
the bound tuple. -/
structure MarketplaceConfigRow where
  base_fee : Nat
  block_number : Nat
  tx_hash : String
  deriving DecidableEq

/-- The store: one list of rows per table touched by the event handlers. -/
structure Db where
  verifier_events : List VerifierEventRow
  ownership_transfers : List OwnershipTransferRow
  device_events : List DeviceEventRow
  device_transfers : List DeviceTransferRow
  data_submissions : List DataSubmissionRow
  marketplace_config : List MarketplaceConfigRow
  deriving DecidableEq

/-- The empty store. -/
def emptyDb : Db := ⟨[], [], [], [], [], []⟩

/-- Modelled from the spec: the `ON CONFLICT DO NOTHING` clauses rely on the
tables' unique constraints, and the migration files that declare those
constraints are not under `src/`; §3 of the spec makes rows unique on the
full inserted tuple (source, natural key, block number, transaction hash),
so the clause amounts to insert-if-absent on row equality. -/
def insertIfAbsent {α : Type} [DecidableEq α] (l : List α) (r : α) : List α :=
  if r ∈ l then l else l ++ [r]

/-- Decoded `VerifierAdded(address indexed verifier, uint256 timestamp)`. -/
structure VerifierAddedFilter where
  verifier : Nat
  timestamp : Nat
  deriving DecidableEq

/-- Decoded `VerifierRemoved(address indexed verifier, uint256 timestamp)`. -/
structure VerifierRemovedFilter where
  verifier : Nat
  timestamp : Nat
  deriving DecidableEq

/-- Decoded `OwnershipTransferred(address indexed previousOwner, address indexed newOwner)`. -/
structure OwnershipTransferredFilter where
  previous_owner : Nat
  new_owner : Nat
  deriving DecidableEq

/-- Decoded `DeviceRegistered(bytes32 indexed deviceId, address indexed owner, uint8 deviceType, string zone, uint256 timestamp)`. -/
structure DeviceRegisteredFilter where
  device_id : Nat
  owner : Nat
  device_type : Nat
  zone : String
  timestamp : Nat
  deriving DecidableEq

/-- Decoded `DeviceUpdated(bytes32 indexed deviceId, address indexed owner, uint256 timestamp)`. -/
structure DeviceUpdatedFilter where
  device_id : Nat
  owner : Nat
  timestamp : Nat
  deriving DecidableEq

/-- Decoded `DeviceTransferred(bytes32 indexed deviceId, address indexed oldOwner, address indexed newOwner, uint256 timestamp)`. -/
structure DeviceTransferredFilter where
  device_id : Nat
  old_owner : Nat
  new_owner : Nat
  timestamp : Nat
  deriving DecidableEq

/-- Decoded `DataSubmitted(bytes32 indexed dataHash, bytes32 indexed deviceIdHash, address indexed deviceOwner, uint256 timestamp)`. -/
structure DataSubmittedFilter where
  data_hash : Nat
  device_id_hash : Nat
  device_owner : Nat
  timestamp : Nat
  deriving DecidableEq

/-- Decoded `MarketplaceConfigUpdated(uint256 baseFee)`. -/
structure MarketplaceConfigUpdatedFilter where
  base_fee : Nat
  deriving DecidableEq

/-- `handle_verifier_added` (`src/main.rs` 309-327): INSERT INTO
verifier_events ... ON CONFLICT DO NOTHING, binding the literal placeholders
`0i64` for `block_number` and `"0x"` for `tx_hash` (the code marks both
with `TODO: Get from log`). -/
def handle_verifier_added (db : Db) (event : VerifierAddedFilter) : Db :=
  { db with verifier_events :=
      (insertIfAbsent db.verifier_events
        ⟨event.verifier, "added", event.timestamp, 0, "0x"⟩) }

/-- `handle_verifier_removed` (`src/main.rs` 329-347). -/
def handle_verifier_removed (db : Db) (event : VerifierRemovedFilter) : Db :=
  { db with verifier_events :=
      (insertIfAbsent db.verifier_events
        ⟨event.verifier, "removed", event.timestamp, 0, "0x"⟩) }

/-- `handle_ownership_transferred` (`src/main.rs` 349-372). -/
def handle_ownership_transferred (db : Db) (event : OwnershipTransferredFilter)
    (contract_type : String) : Db :=
  { db with ownership_transfers :=
      (insertIfAbsent db.ownership_transfers
        ⟨contract_type, event.previous_owner, event.new_owner, 0, "0x"⟩) }

/-- `handle_device_registered` (`src/main.rs` 374-398). -/
def handle_device_registered (db : Db) (event : DeviceRegisteredFilter) : Db :=
  { db with device_events :=
      (insertIfAbsent db.device_events
        ⟨event.device_id, event.owner, "registered", some event.device_type,
         some event.zone, event.timestamp, 0, "0x"⟩) }

/-- `handle_device_updated` (`src/main.rs` 400-421): binds no `device_type`
or `zone` column. -/
def handle_device_updated (db : Db) (event : DeviceUpdatedFilter) : Db :=
  { db with device_events :=
      (insertIfAbsent db.device_events
        ⟨event.device_id, event.owner, "updated", none, none,
         event.timestamp, 0, "0x"⟩) }

/-- `handle_device_transferred` (`src/main.rs` 423-445). -/
def handle_device_transferred (db : Db) (event : DeviceTransferredFilter) : Db :=
  { db with device_transfers :=
      (insertIfAbsent db.device_transfers
        ⟨event.device_id, event.old_owner, event.new_owner,
         event.timestamp, 0, "0x"⟩) }

/-- `handle_data_submitted` (`src/main.rs` 447-469). -/
def handle_data_submitted (db : Db) (event : DataSubmittedFilter) : Db :=
  { db with data_submissions :=
      (insertIfAbsent db.data_submissions
        ⟨event.data_hash, event.device_id_hash, event.device_owner,
         event.timestamp, 0, "0x"⟩) }

/-- `handle_marketplace_config_updated` (`src/main.rs` 471-490): the one
INSERT in the file with no `ON CONFLICT DO NOTHING` clause, so it appends
unconditionally. -/
def handle_marketplace_config_updated (db : Db)
    (event : MarketplaceConfigUpdatedFilter) : Db :=
  { db with marketplace_config :=
      (db.marketplace_config ++ [⟨event.base_fee, 0, "0x"⟩]) }

/-- Event signature topic hash of `VerifierAdded`.  The three signature
hashes are keccak-256 values whose concrete bytes are irrelevant to the
dispatch in `index_verifier_registry` (which only compares `log.topics[0]`
against them for equality), so they are modelled as distinct constants. -/
def VerifierAddedSig : Nat := 1

/-- Event signature topic hash of `VerifierRemoved`. -/
def VerifierRemovedSig : Nat := 2

/-- Event signature topic hash of `OwnershipTransferred`. -/
def OwnershipTransferredSig : Nat := 3

/-- Errors that abort an ingestion loop through the `?` operator, plus the
panic that `log.topics[0]` raises on a log with no topics. -/
inductive IndexError where
  | decodeError (log : RawLog) : IndexError
  | emptyTopics (log : RawLog) : IndexError
  deriving DecidableEq

/-- Big-endian value of a byte string (how a 32-byte ABI word encodes a
`uint256`). -/
def beNat (bytes : List Nat) : Nat :=
  bytes.foldl (fun acc b => acc * 256 + b) 0

/-- `VerifierAddedFilter::decode_log`: one indexed `address` taken from
`topics[1]`, one non-indexed `uint256` decoded from a 32-byte data word;
a topic list of the wrong length or a payload that is not exactly one
word is a decode error. -/
def decodeVerifierAdded (log : RawLog) : Except IndexError VerifierAddedFilter :=
  match log.topics with
  | [_, verifier] =>
      if log.data.length = 32 then Except.ok ⟨verifier, beNat log.data⟩
      else Except.error (IndexError.decodeError log)
  | _ => Except.error (IndexError.decodeError log)

/-- `VerifierRemovedFilter::decode_log`: same layout as `VerifierAdded`. -/
def decodeVerifierRemoved (log : RawLog) : Except IndexError VerifierRemovedFilter :=
  match log.topics with
  | [_, verifier] =>
      if log.data.length = 32 then Except.ok ⟨verifier, beNat log.data⟩
      else Except.error (IndexError.decodeError log)
  | _ => Except.error (IndexError.decodeError log)

/-- `OwnershipTransferredFilter::decode_log`: two indexed addresses, no
non-indexed fields. -/
def decodeOwnershipTransferred (log : RawLog) :
    Except IndexError OwnershipTransferredFilter :=
  match log.topics with
  | [_, previousOwner, newOwner] => Except.ok ⟨previousOwner, newOwner⟩
  | _ => Except.error (IndexError.decodeError log)

/-- Mutable state shared between the indexing loops and the API server
(`AppState` in `src/main.rs`; the `db` pool and the
`latest_block: Arc<RwLock<u64>>` initialised to 0). The `config` field is
carried separately where needed. -/
structure AppState where
  db : Db
  latest_block : Nat
  deriving DecidableEq

/-- The app state `main` builds: empty store, `latest_block` 0
(`RwLock::new(0)`, `src/main.rs` line 110). -/
def initialState : AppState := ⟨emptyDb, 0⟩

/-- The per-record epilogue of every indexing loop (`src/main.rs` 212-216):
if the log carries a block number, overwrite the shared `latest_block` with
exactly that number. -/
def applyLatest (st : AppState) (log : RawLog) : AppState :=
  match log.blockNumber with
  | some bn => { st with latest_block := bn }
  | none => st

/-- One iteration of the `while let` body of `index_verifier_registry`
(`src/main.rs` 193-216): dispatch on `log.topics[0]`, decode and handle
known signatures (`?` propagates a decode failure), ignore unknown ones
with a warning, then update `latest_block` from the record.  Rust would
panic indexing `topics[0]` of an empty topic list; the panic is modelled
as the `emptyTopics` error. -/
def processLog (st : AppState) (log : RawLog) : Except IndexError AppState :=
  match log.topics with
  | [] => Except.error (IndexError.emptyTopics log)
  | topic :: _ =>
      let handled : Except IndexError AppState :=
        if topic = VerifierAddedSig then
          (decodeVerifierAdded log).map
            (fun event => { st with db := handle_verifier_added st.db event })
        else if topic = VerifierRemovedSig then
          (decodeVerifierRemoved log).map
            (fun event => { st with db := handle_verifier_removed st.db event })
        else if topic = OwnershipTransferredSig then
          (decodeOwnershipTransferred log).map
            (fun event =>
              { st with db :=
                  handle_ownership_transferred st.db event "verifier_registry" })
        else Except.ok st
      handled.map (fun st1 => applyLatest st1 log)

/-- The body of `index_verifier_registry` after the subscription is opened
(`src/main.rs` 193-219): consume the stream record by record until it ends,
propagating any handler error; when the stream is exhausted the function
returns `Ok(())` with whatever state was reached — there is no
resubscription, backoff or retry in the code. -/
def index_verifier_registry : AppState → List RawLog → Except IndexError AppState
  | st, [] => Except.ok st
  | st, log :: rest =>
      match processLog st log with
      | Except.ok st1 => index_verifier_registry st1 rest
      | Except.error e => Except.error e

/-- Health response served by `/health` (`src/models.rs` 7-11): a status
string and the single shared latest block. -/
structure HealthResponse where
  status : String
  latest_block : Nat
  deriving DecidableEq

/-- Status response served by `/stats` (`src/models.rs` 13-19). -/
structure StatsResponse where
  verifier_count : Int
  device_count : Int
  data_submission_count : Int
  latest_block : Nat
  deriving DecidableEq

/-- `health_check` (`src/api_simple.rs` 60-67): reads the shared
`latest_block` and always reports the constant status string. -/
def health_check (st : AppState) : HealthResponse :=
  ⟨"healthy", st.latest_block⟩

/-- `get_stats` (`src/api_simple.rs` 69-78): constant zero counters plus the
same shared `latest_block`. -/
def get_stats (st : AppState) : StatsResponse :=
  ⟨0, 0, 0, st.latest_block⟩

/-- Indexer configuration (`src/config.rs` 7-34). -/
structure Config where
  database_url : String
  blockchain_ws_url : String
  verifier_registry_address : String
  device_registry_address : String
  iot_pipeline_address : String
  start_block : Nat
  api_host : String
  api_port : Nat
  deriving DecidableEq

/-- The part of an ethers `Filter` the indexing loops set (`Filter::new()
.address(..).from_block(..)`). -/
structure LogFilter where
  address : String
  from_block : Nat
  deriving DecidableEq

/-- The subscription filter `index_verifier_registry` builds
(`src/main.rs` 186-188): always from the configured start block; no stored
cursor is consulted anywhere in the program. -/
def verifier_filter (cfg : Config) : LogFilter :=
  ⟨cfg.verifier_registry_address, cfg.start_block⟩

/-- The subscription filter `index_device_registry` builds
(`src/main.rs` 231-233). -/
def device_filter (cfg : Config) : LogFilter :=
  ⟨cfg.device_registry_address, cfg.start_block⟩

/-- The subscription filter `index_iot_pipeline` builds
(`src/main.rs` 276-278). -/
def iot_filter (cfg : Config) : LogFilter :=
  ⟨cfg.iot_pipeline_address, cfg.start_block⟩

/-- Written from the spec's words, for comparison with the code: the
subscription's starting point is the maximum of the configured start block
and stored cursor + 1, and the configured start block when the cursor
store has no entry for the source. -/
def specStartingPoint (cfg : Config) (cursor : Option Nat) : Nat :=
  match cursor with
  | some n => max cfg.start_block (n + 1)
  | none => cfg.start_block

/-- `default_page` (`src/api.rs` 25-27). -/
def default_page : Nat := 1

/-- `default_limit` (`src/api.rs` 29-31). -/
def default_limit : Nat := 20

/-- Caller-supplied pagination parameters (`PaginationQuery`,
`src/api.rs` 17-23): two `u32` fields deserialized with no validation
beyond the type's range, so any value below 2^32 — including 0 — is
accepted. -/
structure PaginationQuery where
  page : Nat
  limit : Nat
  deriving DecidableEq

/-- Rust `u32` subtraction: defined only when it does not underflow
(an underflowing subtraction is an arithmetic-overflow program error —
a panic under debug assertions). -/
def u32_sub (a b : Nat) : Option Nat :=
  if b ≤ a then some (a - b) else none

/-- The offset computation shared by the paginated handlers
(`src/api.rs` line 109 and its copies): `((page - 1) * limit) as i64`
over `u32` operands, multiplication reduced modulo 2^32. -/
def page_offset (page limit : Nat) : Option Nat :=
  (u32_sub page 1).map (fun d => d * limit % 4294967296)

/-- A well-formed `VerifierAdded` log: verifier address 7, one 32-byte data
word encoding timestamp 5, block 123, transaction hash 0xABCD, log index 0. -/
def verifierAddedLog123 : RawLog :=
  ⟨80, [VerifierAddedSig, 7], List.replicate 31 0 ++ [5], some 123, some 43981, some 0⟩

/-- A well-formed `VerifierAdded` log at block 10 (first event of that
block): timestamp word all zeroes. -/
def verifierAddedLog10 : RawLog :=
  ⟨80, [VerifierAddedSig, 7], List.replicate 32 0, some 10, some 1, some 0⟩

/-- A malformed `VerifierAdded` log at block 10 (second event of that
block): known signature but truncated (empty) payload. -/
def malformedVerifierAddedLog10 : RawLog :=
  ⟨80, [VerifierAddedSig, 8], [], some 10, some 2, some 1⟩

/-- A log whose first topic (99) matches none of the three known verifier
registry signatures, carrying block number `bn`. -/
def unknownLog (bn : Nat) : RawLog :=
  ⟨80, [99], [], some bn, some 3, some 0⟩

/-- Inserting a row a second time into a list that already got it through
`insertIfAbsent` changes nothing. -/
theorem insertIfAbsent_idem {α : Type} [DecidableEq α] (l : List α) (r : α) :
    insertIfAbsent (insertIfAbsent l r) r = insertIfAbsent l r := by
  by_cases h : r ∈ l
  · simp [insertIfAbsent, h]
  · simp [insertIfAbsent, h]

/-- An error result of the ingestion loop is unaffected by records appended
after the failing prefix: the loop never reaches them. -/
theorem index_error_persists :
    ∀ (pre : List RawLog) (st : AppState) (rest : List RawLog) (e : IndexError),
      index_verifier_registry st pre = Except.error e →
      index_verifier_registry st (pre ++ rest) = Except.error e := by
  intro pre
  induction pre with
  | nil =>
      intro st rest e h
      simp [index_verifier_registry] at h
  | cons log tl ih =>
      intro st rest e h
      rw [List.cons_append]
      unfold index_verifier_registry at h ⊢
      cases hp : processLog st log with
      | ok st1 =>
          rw [hp] at h
          exact ih st1 rest e h
      | error e1 =>
          rw [hp] at h
          exact h

/-- Claim C1: persisting the same record twice yields exactly one row.
This holds for the seven handlers whose INSERT carries
`ON CONFLICT DO NOTHING` — re-applying any of them with the same event is a
no-op — but not for `handle_marketplace_config_updated` (see the
counterexample); the statement here is the amended claim restricted to
those seven handlers. -/
theorem claim1_upsert_handlers_idempotent (db : Db)
    (e1 : VerifierAddedFilter) (e2 : VerifierRemovedFilter)
    (e3 : OwnershipTransferredFilter) (ct : String)
    (e4 : DeviceRegisteredFilter) (e5 : DeviceUpdatedFilter)
    (e6 : DeviceTransferredFilter) (e7 : DataSubmittedFilter) :
    handle_verifier_added (handle_verifier_added db e1) e1 =
      handle_verifier_added db e1 ∧
    handle_verifier_removed (handle_verifier_removed db e2) e2 =
      handle_verifier_removed db e2 ∧
    handle_ownership_transferred (handle_ownership_transferred db e3 ct) e3 ct =
      handle_ownership_transferred db e3 ct ∧
    handle_device_registered (handle_device_registered db e4) e4 =
      handle_device_registered db e4 ∧
    handle_device_updated (handle_device_updated db e5) e5 =
      handle_device_updated db e5 ∧
    handle_device_transferred (handle_device_transferred db e6) e6 =
      handle_device_transferred db e6 ∧
    handle_data_submitted (handle_data_submitted db e7) e7 =
      handle_data_submitted db e7 := by
  refine ⟨?_, ?_, ?_, ?_, ?_, ?_, ?_⟩ <;>
    simp [handle_verifier_added, handle_verifier_removed,
          handle_ownership_transferred, handle_device_registered,
          handle_device_updated, handle_device_transferred,
          handle_data_submitted, insertIfAbsent_idem]

/-- Claim C1 counterexample: `handle_marketplace_config_updated` has no
`ON CONFLICT DO NOTHING` clause, so re-delivering the same
`MarketplaceConfigUpdated` record (base fee 100) to an empty store leaves
two identical rows — the second write is not an upsert-style no-op. -/
theorem claim1_marketplace_second_row :
    (handle_marketplace_config_updated
        (handle_marketplace_config_updated emptyDb ⟨100⟩) ⟨100⟩).marketplace_config =
      [⟨100, 0, "0x"⟩, ⟨100, 0, "0x"⟩] := rfl

/-- Claim C2: the stored provenance never equals the originating record's.
Processing a well-formed `VerifierAdded` record whose provenance is
(block 123, tx 0xABCD, log index 0) stores the row
(verifier 7, "added", timestamp 5, block_number 0, tx_hash "0x"): the
handlers bind the literal placeholders `0i64` and `"0x"` (marked
`TODO: Get from log` in the source) and no log index column exists, so the
claimed invariant fails on every record with a non-zero block number. -/
theorem claim2_provenance_is_placeholder :
    (processLog initialState verifierAddedLog123).map
        (fun st => st.db.verifier_events) =
      Except.ok [⟨7, "added", 5, 0, "0x"⟩] ∧
    verifierAddedLog123.blockNumber = some 123 ∧
    verifierAddedLog123.txHash = some 43981 ∧
    (0 : Nat) ≠ 123 := by
  refine ⟨rfl, rfl, rfl, by decide⟩

/-- Claim C3: the exposed cursor must advance to a block only after all of
that block's events are durably written.  The code instead overwrites the
shared `latest_block` immediately after each individual record: after the
first of two block-10 records it already reads 10, although the second
block-10 record then fails to persist (its decode error aborts the loop),
so readers see cursor 10 for a partially-written block.  (No durable
per-source cursor exists anywhere in the program.) -/
theorem claim3_cursor_advances_per_record :
    (processLog initialState verifierAddedLog10).map AppState.latest_block =
      Except.ok 10 ∧
    index_verifier_registry initialState
        [verifierAddedLog10, malformedVerifierAddedLog10] =
      Except.error (IndexError.decodeError malformedVerifierAddedLog10) :=
  ⟨rfl, rfl⟩

/-- Claim C4 (amended): the subscription's starting point is always exactly
the configured start block for each of the three sources — the program
loads no stored cursor, so it behaves as if the cursor store always
answered `none`. -/
theorem claim4_start_is_configured_block (cfg : Config) :
    (verifier_filter cfg).from_block = specStartingPoint cfg none ∧
    (device_filter cfg).from_block = specStartingPoint cfg none ∧
    (iot_filter cfg).from_block = specStartingPoint cfg none :=
  ⟨rfl, rfl, rfl⟩

/-- A concrete configuration with start block 0, used to refute claim C4. -/
def cfgEx : Config :=
  ⟨"postgresql://localhost/lcore", "ws://localhost:8545", "0xv", "0xd", "0xi",
   0, "0.0.0.0", 8090⟩

/-- Claim C4 counterexample: with configured start block 0 and a stored
cursor at block 5, the claim requires starting at max(0, 5+1) = 6; the
code's filter starts at 0 regardless, re-requesting blocks ≤ 5. -/
theorem claim4_counterexample :
    (verifier_filter cfgEx).from_block = 0 ∧
    specStartingPoint cfgEx (some 5) = 6 ∧
    (verifier_filter cfgEx).from_block ≠ specStartingPoint cfgEx (some 5) ∧
    (verifier_filter cfgEx).from_block ≤ 5 := by
  refine ⟨rfl, rfl, ?_, ?_⟩ <;> decide

/-- Claim C5 (amended): a malformed record of a known signature does not
get logged and skipped — its `DecodeError` propagates through the `?`
operator and terminates the source's ingestion loop at once, whatever state
the loop is in and whatever records follow; none of the subsequent records
is processed. -/
theorem claim5_decode_error_kills_loop (st : AppState) (rest : List RawLog) :
    index_verifier_registry st (malformedVerifierAddedLog10 :: rest) =
      Except.error (IndexError.decodeError malformedVerifierAddedLog10) := rfl

/-- Claim C5 counterexample: one malformed known-signature record followed
by a well-formed one; the claim requires the loop to skip the bad record
and persist the good one, but the run ends in the decode error and the
well-formed record's row is never written. -/
theorem claim5_counterexample :
    index_verifier_registry initialState
        [malformedVerifierAddedLog10, verifierAddedLog123] =
      Except.error (IndexError.decodeError malformedVerifierAddedLog10) := rfl

/-- Claim C6 (amended): nothing in the ingestion loop retries.  When the
stream ends (connection lost) the function immediately returns `Ok` with
the state reached — no resume-point recomputation, no backoff, no
resubscription — and once a record fails, appending more stream content
changes nothing: the loop never reaches it. -/
theorem claim6_loop_stops_for_good (st : AppState) (pre rest : List RawLog)
    (e : IndexError) (h : index_verifier_registry st pre = Except.error e) :
    index_verifier_registry st [] = Except.ok st ∧
    index_verifier_registry st (pre ++ rest) = Except.error e :=
  ⟨rfl, index_error_persists pre st rest e h⟩

/-- Witness for claim C6's theorem at a concrete failing prefix. -/
theorem claim6_loop_stops_for_good_witness :
    index_verifier_registry initialState [malformedVerifierAddedLog10] =
      Except.error (IndexError.decodeError malformedVerifierAddedLog10) ∧
    (index_verifier_registry initialState [] = Except.ok initialState ∧
     index_verifier_registry initialState
        ([malformedVerifierAddedLog10] ++ [verifierAddedLog123]) =
       Except.error (IndexError.decodeError malformedVerifierAddedLog10)) :=
  ⟨rfl, claim6_loop_stops_for_good initialState [malformedVerifierAddedLog10]
    [verifierAddedLog123] (IndexError.decodeError malformedVerifierAddedLog10) rfl⟩

/-- Claim C6 counterexample: the connection-lost case concretely — the
stream ends and the function returns `Ok` with the state unchanged, so the
source's loop stops permanently instead of backing off, resubscribing and
retrying indefinitely. -/
theorem claim6_counterexample :
    index_verifier_registry initialState [] = Except.ok initialState := rfl

/-- Claim C7: a record whose first topic matches none of the known
signatures produces no error and no change to any table (only the shared
`latest_block` is refreshed, as it is for every record), and the loop
continues with the remaining records exactly as if the unknown record were
its only effect-free prefix. -/
theorem claim7_unknown_signature_tolerated (st : AppState) (log : RawLog)
    (rest : List RawLog) (topic : Nat) (ts : List Nat)
    (htop : log.topics = topic :: ts)
    (h1 : topic ≠ VerifierAddedSig) (h2 : topic ≠ VerifierRemovedSig)
    (h3 : topic ≠ OwnershipTransferredSig) :
    processLog st log = Except.ok (applyLatest st log) ∧
    (applyLatest st log).db = st.db ∧
    index_verifier_registry st (log :: rest) =
      index_verifier_registry (applyLatest st log) rest := by
  have hp : processLog st log = Except.ok (applyLatest st log) := by
    unfold processLog
    rw [htop]
    simp [h1, h2, h3, Except.map]
  refine ⟨hp, ?_, ?_⟩
  · unfold applyLatest
    cases log.blockNumber <;> rfl
  · have hstep : index_verifier_registry st (log :: rest) =
        match processLog st log with
        | Except.ok st1 => index_verifier_registry st1 rest
        | Except.error e => Except.error e := rfl
    rw [hstep, hp]

/-- Witness for claim C7's theorem: the concrete unknown-topic record at
block 7 against the freshly started state. -/
theorem claim7_unknown_signature_tolerated_witness :
    processLog initialState (unknownLog 7) =
      Except.ok (applyLatest initialState (unknownLog 7)) ∧
    (applyLatest initialState (unknownLog 7)).db = initialState.db ∧
    index_verifier_registry initialState [unknownLog 7] =
      index_verifier_registry (applyLatest initialState (unknownLog 7)) [] :=
  claim7_unknown_signature_tolerated initialState (unknownLog 7) [] 99 [] rfl
    (by decide) (by decide) (by decide)

/-- Claim C8 (amended): the health surface carries no per-source data.  Any
two states agreeing on the single shared `latest_block` — however much
their stores (and hence their ingestion histories) differ — produce
identical `/health` and `/stats` responses, and the status string is the
constant "healthy"; the one `latest_block` figure is all the API surfaces. -/
theorem claim8_no_per_source_health (st st' : AppState)
    (h : st.latest_block = st'.latest_block) :
    health_check st = health_check st' ∧
    get_stats st = get_stats st' ∧
    health_check st = ⟨"healthy", st.latest_block⟩ ∧
    (get_stats st).latest_block = (health_check st).latest_block := by
  refine ⟨?_, ?_, rfl, rfl⟩
  · unfold health_check
    rw [h]
  · unfold get_stats
    rw [h]

/-- Witness for claim C8's theorem: two concrete states with the same
`latest_block` 7 but different stores. -/
theorem claim8_no_per_source_health_witness :
    (⟨emptyDb, 7⟩ : AppState).latest_block =
      (⟨handle_verifier_added emptyDb ⟨7, 5⟩, 7⟩ : AppState).latest_block ∧
    health_check ⟨emptyDb, 7⟩ =
      health_check ⟨handle_verifier_added emptyDb ⟨7, 5⟩, 7⟩ :=
  ⟨rfl, (claim8_no_per_source_health ⟨emptyDb, 7⟩
    ⟨handle_verifier_added emptyDb ⟨7, 5⟩, 7⟩ rfl).1⟩

/-- Claim C8 counterexample: the complete `/health` and `/stats` payloads at
concrete states.  Both contain exactly one block figure (the single shared
`latest_block`) and a constant status, and a state whose store holds a
persisted verifier event is indistinguishable from the empty one — so no
per-source connection state (connected/reconnecting/failed) and no
per-source block number is exposed anywhere. -/
theorem claim8_counterexample :
    health_check ⟨emptyDb, 7⟩ = ⟨"healthy", 7⟩ ∧
    get_stats ⟨emptyDb, 7⟩ = ⟨0, 0, 0, 7⟩ ∧
    health_check ⟨handle_verifier_added emptyDb ⟨7, 5⟩, 7⟩ =
      health_check ⟨emptyDb, 7⟩ :=
  ⟨rfl, rfl, rfl⟩

/-- Claim C9: the paginated handlers accept `page = 0` (the `u32` field is
deserialized without validation, defaults `page = 1`, `limit = 20`), and
the offset `(page - 1) * limit` underflows at `page = 0`, so the
computation is undefined there and total on every `page ≥ 1`. -/
theorem claim9_page_zero_underflows :
    default_page = 1 ∧ default_limit = 20 ∧
    page_offset 0 default_limit = none ∧
    page_offset default_page default_limit = some 0 ∧
    (∀ p l : Nat, page_offset (p + 1) l = some (p * l % 4294967296)) := by
  refine ⟨rfl, rfl, rfl, rfl, ?_⟩
  intro p l
  simp [page_offset, u32_sub]

/-- Claim C10: `latest_block` starts at 0, each record that carries a block
number overwrites it with exactly that block number (never the maximum seen
so far), and consequently it is not monotone: processing a block-10 record
then a re-delivered block-5 record leaves it at 5 < 10. -/
theorem claim10_latest_block_not_monotone :
    initialState.latest_block = 0 ∧
    (∀ (st : AppState) (log : RawLog) (bn : Nat) (st' : AppState),
      log.blockNumber = some bn → processLog st log = Except.ok st' →
      st'.latest_block = bn) ∧
    index_verifier_registry initialState [unknownLog 10, unknownLog 5] =
      Except.ok ⟨emptyDb, 5⟩ ∧
    (5 : Nat) < 10 := by
  refine ⟨rfl, ?_, rfl, by decide⟩
  intro st log bn st' hbn hp
  unfold processLog at hp
  cases htop : log.topics with
  | nil =>
      rw [htop] at hp
      exact absurd hp (by simp)
  | cons t ts =>
      rw [htop] at hp
      simp only [Except.map] at hp
      split at hp
      next err heq => exact absurd hp (by simp)
      next v heq =>
        have hst : applyLatest v log = st' := by
          injection hp
        subst hst
        simp [applyLatest, hbn]

/-- Witness for claim C10's theorem at the concrete unknown-topic record
carrying block number 7. -/
theorem claim10_latest_block_not_monotone_witness :
    (unknownLog 7).blockNumber = some 7 ∧
    processLog initialState (unknownLog 7) =
      Except.ok (applyLatest initialState (unknownLog 7)) ∧
    (applyLatest initialState (unknownLog 7)).latest_block = 7 :=
  ⟨rfl, rfl, claim10_latest_block_not_monotone.2.1 initialState (unknownLog 7) 7
    (applyLatest initialState (unknownLog 7)) rfl rfl⟩

end LCore
